import Mathlib

/-!
Verification of `src/test-file-types/example.py`.

The module defines a recursive `factorial` on Python integers (arbitrary
precision, embedded as `ℤ`) and a `Calculator` class whose two methods
`add` and `multiply` operate on Python numeric operands.
-/

/-- Embedding of `factorial` from `example.py`:
`if n <= 1: return 1` else `return n * factorial(n - 1)`.
Python integers are arbitrary precision, so the domain is `ℤ`. -/
def factorial (n : Int) : Int :=
  if n ≤ 1 then 1
  else n * factorial (n - 1)
termination_by n.toNat
decreasing_by omega

/-- Fuel-indexed evaluator for the same recursion: one unit of fuel is
consumed per call, so `factorialFuel fuel n = none` means the call tree of
`factorial(n)` is deeper than `fuel`; `∀ fuel, factorialFuel fuel n = none`
expresses non-termination of the Python recursion at `n`. -/
def factorialFuel : Nat → Int → Option Int
  | 0, _ => none
  | fuel + 1, n =>
    if n ≤ 1 then some 1
    else (factorialFuel fuel (n - 1)).map (fun r => n * r)

/-- Operand domain of the `Calculator` methods: Python numeric values.
Python floats are IEEE-754 doubles, so the domain has the special values
NaN, +inf and -inf alongside finite numbers; finite values are embedded as
exact rationals (every int and every finite double is a rational, and the
negative zero is identified with zero, as Python `==` does). Rounding and
overflow of finite results are not modelled. -/
inductive PyNum where
  | fin : ℚ → PyNum
  | pinf : PyNum
  | ninf : PyNum
  | nan : PyNum
deriving DecidableEq

/-- Python `a + b` on the operand domain: NaN propagates, opposite
infinities give NaN, an infinity absorbs finite summands, finite sums are
exact. -/
def pyAdd : PyNum → PyNum → PyNum
  | .nan, _ => .nan
  | _, .nan => .nan
  | .pinf, .ninf => .nan
  | .pinf, _ => .pinf
  | .ninf, .pinf => .nan
  | .ninf, _ => .ninf
  | .fin _, .pinf => .pinf
  | .fin _, .ninf => .ninf
  | .fin x, .fin y => .fin (x + y)

/-- Python `a * b` on the operand domain: NaN propagates, infinity times
zero gives NaN, infinity times a nonzero value gives an infinity with the
product sign, finite products are exact. -/
def pyMul : PyNum → PyNum → PyNum
  | .nan, _ => .nan
  | _, .nan => .nan
  | .pinf, .pinf => .pinf
  | .pinf, .ninf => .ninf
  | .ninf, .pinf => .ninf
  | .ninf, .ninf => .pinf
  | .pinf, .fin y => if 0 < y then .pinf else if y < 0 then .ninf else .nan
  | .ninf, .fin y => if 0 < y then .ninf else if y < 0 then .pinf else .nan
  | .fin x, .pinf => if 0 < x then .pinf else if x < 0 then .ninf else .nan
  | .fin x, .ninf => if 0 < x then .ninf else if x < 0 then .pinf else .nan
  | .fin x, .fin y => .fin (x * y)

/-- Python `==` on the operand domain: NaN compares unequal to everything,
itself included; infinities compare equal only to themselves; finite values
compare by numeric value. -/
def pyEq : PyNum → PyNum → Bool
  | .nan, _ => false
  | _, .nan => false
  | .pinf, .pinf => true
  | .ninf, .ninf => true
  | .fin x, .fin y => decide (x = y)
  | _, _ => false

/-- Embedding of the `Calculator` class. The class body declares no
attributes, but a Python instance still carries its mutable attribute
dictionary, modelled here so that method calls can be observed to leave it
untouched. -/
structure Calculator where
  attrs : List (String × PyNum)

/-- Embedding of `Calculator.add`: `return a + b`. The method is given in
state-passing style, returning the result together with the (unchanged)
receiver. -/
def Calculator.add (self : Calculator) (a b : PyNum) : PyNum × Calculator :=
  (pyAdd a b, self)

/-- Embedding of `Calculator.multiply`: `return a * b`, in the same
state-passing style. -/
def Calculator.multiply (self : Calculator) (a b : PyNum) : PyNum × Calculator :=
  (pyMul a b, self)

/-- One method call on a `Calculator` instance: either `add(a, b)` or
`multiply(a, b)`. -/
inductive CalcOp where
  | addOp : PyNum → PyNum → CalcOp
  | mulOp : PyNum → PyNum → CalcOp

/-- Run a sequence of method calls against an instance, threading the
instance state and collecting the results in order. -/
def runCalc : Calculator → List CalcOp → Calculator × List PyNum
  | c, [] => (c, [])
  | c, CalcOp.addOp a b :: rest =>
    ((runCalc (c.add a b).2 rest).1, (c.add a b).1 :: (runCalc (c.add a b).2 rest).2)
  | c, CalcOp.mulOp a b :: rest =>
    ((runCalc (c.multiply a b).2 rest).1,
      (c.multiply a b).1 :: (runCalc (c.multiply a b).2 rest).2)

theorem factorial_of_le_one (n : Int) (h : n ≤ 1) : factorial n = 1 := by
  rw [factorial, if_pos h]

theorem factorial_of_not_le_one (n : Int) (h : ¬ n ≤ 1) :
    factorial n = n * factorial (n - 1) := by
  rw [factorial, if_neg h]

theorem factorialFuel_correct (fuel : Nat) (n : Int) (h : n.toNat < fuel) :
    factorialFuel fuel n = some (factorial n) := by
  induction fuel generalizing n with
  | zero => omega
  | succ fuel ih =>
    by_cases hle : n ≤ 1
    · rw [factorialFuel, if_pos hle, factorial_of_le_one n hle]
    · have hrec : (n - 1).toNat < fuel := by omega
      rw [factorialFuel, if_neg hle, ih (n - 1) hrec, Option.map,
        factorial_of_not_le_one n hle]

theorem factorialFuel_one_of_le_one (n : Int) (h : n ≤ 1) :
    factorialFuel 1 n = some 1 := by
  simp [factorialFuel, h]

theorem pyMul_comm (a b : PyNum) : pyMul a b = pyMul b a := by
  cases a <;> cases b <;> simp [pyMul, mul_comm]

theorem pyEq_refl_of_ne_nan (a : PyNum) (h : a ≠ PyNum.nan) :
    pyEq a a = true := by
  cases a with
  | fin x => simp [pyEq]
  | pinf => rfl
  | ninf => rfl
  | nan => exact absurd rfl h

theorem runCalc_state (c : Calculator) (ops : List CalcOp) :
    (runCalc c ops).1 = c := by
  induction ops generalizing c with
  | nil => rfl
  | cons op rest ih =>
    cases op <;> simp [runCalc, Calculator.add, Calculator.multiply, ih]

theorem runCalc_results (c c₂ : Calculator) (ops : List CalcOp) :
    (runCalc c ops).2 = (runCalc c₂ ops).2 := by
  induction ops generalizing c c₂ with
  | nil => rfl
  | cons op rest ih =>
    cases op <;> simp [runCalc, Calculator.add, Calculator.multiply] <;>
      exact ih _ _

theorem factorial_five : factorial 5 = 120 := by
  have h := factorialFuel_correct 6 5 (by decide)
  have h2 : factorialFuel 6 5 = some 120 := by decide
  rw [h] at h2
  exact Option.some.inj h2

theorem factorial_ten : factorial 10 = 3628800 := by
  have h := factorialFuel_correct 11 10 (by decide)
  have h2 : factorialFuel 11 10 = some 3628800 := by decide
  rw [h] at h2
  exact Option.some.inj h2

/-- C1: for every integer n, factorial(n) returns 1 when n ≤ 1 and
n * factorial(n−1) otherwise; in particular factorial(0) = 1,
factorial(1) = 1, factorial(5) = 120 and factorial(10) = 3628800. -/
theorem C1_factorial_contract :
    (∀ n : Int, n ≤ 1 → factorial n = 1) ∧
    (∀ n : Int, ¬ n ≤ 1 → factorial n = n * factorial (n - 1)) ∧
    factorial 0 = 1 ∧ factorial 1 = 1 ∧
    factorial 5 = 120 ∧ factorial 10 = 3628800 :=
  ⟨factorial_of_le_one, factorial_of_not_le_one,
    factorial_of_le_one 0 (by decide), factorial_of_le_one 1 (by decide),
    factorial_five, factorial_ten⟩

/-- Witness for C1 at n = 0 and n = 2. -/
theorem C1_factorial_contract_witness :
    factorial 0 = 1 ∧ factorial 2 = 2 * factorial 1 :=
  ⟨C1_factorial_contract.1 0 (by decide),
    C1_factorial_contract.2.1 2 (by decide)⟩

/-- C2 counterexample: it is false that every negative input makes the
recursion run forever; at n = -1 the call terminates (already with fuel for
a single call) and returns a result. -/
theorem C2_nontermination_counterexample :
    ¬ (∀ n : Int, n < 0 → ∀ fuel : Nat, factorialFuel fuel n = none) := by
  intro h
  exact absurd (h (-1) (by decide) 1) (by decide)

/-- C2 amended: for every negative integer n the guard n ≤ 1 is taken on
the first call, so factorial(n) terminates immediately — one unit of fuel
suffices — and returns 1. -/
theorem C2_negative_input_terminates (n : Int) (h : n < 0) :
    factorialFuel 1 n = some 1 ∧ factorial n = 1 := by
  have hle : n ≤ 1 := by omega
  exact ⟨factorialFuel_one_of_le_one n hle, factorial_of_le_one n hle⟩

/-- Witness for C2 (amended) at n = -7. -/
theorem C2_negative_input_terminates_witness :
    factorialFuel 1 (-7) = some 1 ∧ factorial (-7) = 1 :=
  C2_negative_input_terminates (-7) (by decide)

/-- C3: for every integer n > 0, factorial(n) = n * factorial(n−1). -/
theorem C3_factorial_recurrence (n : Int) (h : 0 < n) :
    factorial n = n * factorial (n - 1) := by
  by_cases hle : n ≤ 1
  · have h1 : n = 1 := by omega
    subst h1
    rw [show (1 : Int) - 1 = 0 from rfl, factorial_of_le_one 1 (by decide),
      factorial_of_le_one 0 (by decide)]
    norm_num
  · exact factorial_of_not_le_one n hle

/-- Witness for C3 at n = 5. -/
theorem C3_factorial_recurrence_witness :
    factorial 5 = 5 * factorial 4 :=
  C3_factorial_recurrence 5 (by decide)

/-- C4: Calculator.add(a, b) returns the Python sum a + b — on finite
operands the exact sum — and add(2, 3) == 5 and add(-1.5, 1.5) == 0.0. -/
theorem C4_add_returns_sum :
    (∀ (c : Calculator) (a b : PyNum), (c.add a b).1 = pyAdd a b) ∧
    (∀ x y : ℚ, pyAdd (.fin x) (.fin y) = .fin (x + y)) ∧
    pyEq (pyAdd (.fin 2) (.fin 3)) (.fin 5) = true ∧
    pyEq (pyAdd (.fin (-1.5)) (.fin 1.5)) (.fin 0) = true :=
  ⟨fun _ _ _ => rfl, fun _ _ => rfl, by norm_num [pyAdd, pyEq],
    by norm_num [pyAdd, pyEq]⟩

/-- C5: Calculator.multiply(a, b) returns the Python product a * b — on
finite operands the exact product — and multiply(2, 3) == 6 and
multiply(0, 5) == 0. -/
theorem C5_multiply_returns_product :
    (∀ (c : Calculator) (a b : PyNum), (c.multiply a b).1 = pyMul a b) ∧
    (∀ x y : ℚ, pyMul (.fin x) (.fin y) = .fin (x * y)) ∧
    pyEq (pyMul (.fin 2) (.fin 3)) (.fin 6) = true ∧
    pyEq (pyMul (.fin 0) (.fin 5)) (.fin 0) = true :=
  ⟨fun _ _ _ => rfl, fun _ _ => rfl, by norm_num [pyMul, pyEq],
    by norm_num [pyMul, pyEq]⟩

/-- C6 counterexample: maximal commutativity under Python == fails over the
full operand domain: with a = NaN and b = 1 both products are NaN, and
NaN == NaN is false, so multiply(a, b) == multiply(b, a) does not hold. -/
theorem C6_multiply_comm_counterexample :
    ¬ (∀ (c : Calculator) (a b : PyNum),
      pyEq (c.multiply a b).1 (c.multiply b a).1 = true) := by
  intro h
  exact absurd (h ⟨[]⟩ PyNum.nan (PyNum.fin 1)) (by decide)

/-- C6 amended: multiply(a, b) and multiply(b, a) always compute the same
value, and the == comparison between them succeeds whenever that common
value is not NaN (it fails exactly when a NaN is produced, since
NaN == NaN is false). -/
theorem C6_multiply_commutative (c : Calculator) (a b : PyNum) :
    (c.multiply a b).1 = (c.multiply b a).1 ∧
    ((c.multiply a b).1 ≠ PyNum.nan →
      pyEq (c.multiply a b).1 (c.multiply b a).1 = true) := by
  refine ⟨pyMul_comm a b, fun hnan => ?_⟩
  show pyEq (pyMul a b) (pyMul b a) = true
  rw [← pyMul_comm a b]
  exact pyEq_refl_of_ne_nan _ hnan

/-- Witness for C6 (amended) at a = 2, b = 3. -/
theorem C6_multiply_commutative_witness :
    ((⟨[]⟩ : Calculator).multiply (.fin 2) (.fin 3)).1 =
      ((⟨[]⟩ : Calculator).multiply (.fin 3) (.fin 2)).1 ∧
    pyEq ((⟨[]⟩ : Calculator).multiply (.fin 2) (.fin 3)).1
      ((⟨[]⟩ : Calculator).multiply (.fin 3) (.fin 2)).1 = true :=
  ⟨(C6_multiply_commutative ⟨[]⟩ (.fin 2) (.fin 3)).1,
    (C6_multiply_commutative ⟨[]⟩ (.fin 2) (.fin 3)).2 (by decide)⟩

/-- C7 counterexample: add(a, 0) == a fails over the full operand domain at
a = NaN: add(NaN, 0) is NaN and NaN == NaN is false. -/
theorem C7_add_identity_counterexample :
    ¬ (∀ (c : Calculator) (a : PyNum),
      pyEq (c.add a (PyNum.fin 0)).1 a = true) := by
  intro h
  exact absurd (h ⟨[]⟩ PyNum.nan) (by decide)

/-- C7 amended: add(a, 0) == a holds for every operand a other than NaN
(for a = NaN the sum is NaN, which compares unequal to itself). -/
theorem C7_add_zero_identity (c : Calculator) (a : PyNum)
    (h : a ≠ PyNum.nan) :
    pyEq (c.add a (PyNum.fin 0)).1 a = true := by
  show pyEq (pyAdd a (PyNum.fin 0)) a = true
  cases a with
  | fin x => simp [pyAdd, pyEq]
  | pinf => rfl
  | ninf => rfl
  | nan => exact absurd rfl h

/-- Witness for C7 (amended) at a = 5. -/
theorem C7_add_zero_identity_witness :
    pyEq ((⟨[]⟩ : Calculator).add (.fin 5) (PyNum.fin 0)).1 (.fin 5) = true :=
  C7_add_zero_identity ⟨[]⟩ (.fin 5) (by decide)

/-- C8: all three operations are deterministic and side-effect-free: a
method result depends only on the arguments (not on the receiver), a
method call leaves the receiver unchanged, and any two
sufficiently-resourced executions of factorial at the same input return
the same result. -/
theorem C8_deterministic_pure :
    (∀ (c c₂ : Calculator) (a b : PyNum),
      (c.add a b).1 = (c₂.add a b).1 ∧
      (c.multiply a b).1 = (c₂.multiply a b).1) ∧
    (∀ (c : Calculator) (a b : PyNum),
      (c.add a b).2 = c ∧ (c.multiply a b).2 = c) ∧
    (∀ (n : Int) (f₁ f₂ : Nat), n.toNat < f₁ → n.toNat < f₂ →
      factorialFuel f₁ n = factorialFuel f₂ n) :=
  ⟨fun _ _ _ _ => ⟨rfl, rfl⟩, fun _ _ _ => ⟨rfl, rfl⟩,
    fun n f₁ f₂ h₁ h₂ => by
      rw [factorialFuel_correct f₁ n h₁, factorialFuel_correct f₂ n h₂]⟩

/-- Witness for C8: two executions of factorial(2) with fuel 3 and 5. -/
theorem C8_deterministic_pure_witness :
    factorialFuel 3 2 = factorialFuel 5 2 :=
  C8_deterministic_pure.2.2 2 3 5 (by decide) (by decide)

/-- C9: a Calculator instance is stateless: after any sequence of
add/multiply calls the instance is unchanged, and the sequence of results
depends only on the per-call arguments, not on the instance. -/
theorem C9_calculator_stateless :
    (∀ (c : Calculator) (ops : List CalcOp), (runCalc c ops).1 = c) ∧
    (∀ (c c₂ : Calculator) (ops : List CalcOp),
      (runCalc c ops).2 = (runCalc c₂ ops).2) :=
  ⟨runCalc_state, runCalc_results⟩

/-- C10: factorial is total over ℤ: fuel |n| + 1 always suffices, and for
every n ≤ 1 — every negative n included — the guard n ≤ 1 is taken on the
first call, so one unit of fuel suffices (no recursion occurs) and the
result is 1. -/
theorem C10_factorial_total :
    (∀ n : Int, factorialFuel (n.toNat + 1) n = some (factorial n)) ∧
    (∀ n : Int, n ≤ 1 → factorialFuel 1 n = some 1 ∧ factorial n = 1) :=
  ⟨fun n => factorialFuel_correct (n.toNat + 1) n (by omega),
    fun n h => ⟨factorialFuel_one_of_le_one n h, factorial_of_le_one n h⟩⟩

/-- Witness for C10 at n = -4. -/
theorem C10_factorial_total_witness :
    factorialFuel 1 (-4) = some 1 ∧ factorial (-4) = 1 :=
  C10_factorial_total.2 (-4) (by decide)
